import Mathlib

/-!
Verification of the strumm SCUMM-text-extractor (src/strumm.py) against its
natural-language specification. The Python source is shallowly embedded:
Python 2 `str` values become `List Nat` (one Nat per byte), the seekable
input file becomes an explicit `RawStream` record, the XOR-decrypting
wrapper becomes `DecryptingStream`, and the recursive block walker becomes
a fuel-indexed structural recursion (`processBlock`), where running out of
fuel (`none`) models non-termination. Python exceptions are modelled by the
`PyErr` sum: the explicitly raised exception classes of the source
(`ScummFileError`, `WTFError`, `DescummError`) and the implicit runtime
faults the interpreter can raise (`AttributeError`, `IndexError`,
`ValueError`, `struct.error`, `AssertionError`, `IOError`). The external
`descumm` subprocess is abstracted as an oracle parameter mapping the
staged script bytes to its stdout text (or a failure).
-/

deriving instance DecidableEq for Except

namespace Strumm

/-- A Python 2 byte (one character of a `str`); values are below 256 for
real file data, though the embedding does not need that bound. -/
abbrev Byte := Nat

/-- Exception classes observable while processing. The first three carry
their message text, mirroring the classes defined in the source; the rest
model builtin Python faults raised implicitly. -/
inductive PyErr where
  | scummFileError (msg : List Byte)
  | wtfError (msg : List Byte)
  | descummError (msg : List Byte)
  | structError
  | assertionError
  | attributeError
  | indexError
  | valueError
  | osError
  deriving DecidableEq, Repr

/-- ASCII bytes of a Lean string literal, used to transcribe the source's
string constants. -/
def strBytes (s : String) : List Byte := s.toList.map Char.toNat

/-- The underlying opened file: contents plus the current position. `read`
past the end returns the empty string, as Python 2 file objects do. -/
structure RawStream where
  data : List Byte
  pos : Nat
  deriving DecidableEq, Repr

/-- Python `file.read(n)`: up to `n` bytes from the current position,
advancing by however many were actually available. -/
def RawStream.read (st : RawStream) (n : Nat) : List Byte × RawStream :=
  let bs := (st.data.drop st.pos).take n
  (bs, { st with pos := st.pos + bs.length })

/-- Python `file.tell()`. -/
def RawStream.tell (st : RawStream) : Nat := st.pos

/-- Python `file.seek(off, whence)` with `whence` 0 = `os.SEEK_SET`,
1 = `os.SEEK_CUR`. Seeking to a negative absolute position raises
`IOError`; seeking past the end is allowed. -/
def RawStream.seek (st : RawStream) (off : Int) (whence : Nat) :
    Except PyErr RawStream :=
  let base : Int := if whence = 1 then (st.pos : Int) else 0
  let target := base + off
  if target < 0 then .error .osError
  else .ok { st with pos := target.toNat }

/-- The byte transform of `DecryptingStream.read` (src lines 53-58): XOR
every byte with the key, with the source's `if self._xor != 0` shortcut
that returns the data untouched for key 0. -/
def decryptBytes (xor : Nat) (data : List Byte) : List Byte :=
  if xor ≠ 0 then data.map (fun x => x ^^^ xor) else data

/-- Model of class `DecryptingStream` (src lines 47-64): a raw stream plus
the single-byte XOR key. -/
structure DecryptingStream where
  source : RawStream
  xorKey : Nat
  deriving DecidableEq, Repr

/-- `DecryptingStream.read`: read from the wrapped stream, then XOR. -/
def DecryptingStream.read (ds : DecryptingStream) (n : Nat) :
    List Byte × DecryptingStream :=
  let (data, st) := ds.source.read n
  (decryptBytes ds.xorKey data, { ds with source := st })

/-- `DecryptingStream.seek` passes straight through to the wrapped
stream. -/
def DecryptingStream.seek (ds : DecryptingStream) (off : Int) (whence : Nat) :
    Except PyErr DecryptingStream :=
  match ds.source.seek off whence with
  | .error e => .error e
  | .ok st => .ok { ds with source := st }

/-- `DecryptingStream.tell` passes straight through to the wrapped
stream. -/
def DecryptingStream.tell (ds : DecryptingStream) : Nat := ds.source.tell

/-- Python whitespace bytes accepted by `int()` around its argument. -/
def isSpaceByte (b : Byte) : Bool :=
  b = 32 ∨ b = 9 ∨ b = 10 ∨ b = 13 ∨ b = 11 ∨ b = 12

/-- Value of one hexadecimal digit byte, if it is one. -/
def hexDigitVal (b : Byte) : Option Nat :=
  if 48 ≤ b ∧ b ≤ 57 then some (b - 48)
  else if 65 ≤ b ∧ b ≤ 70 then some (b - 55)
  else if 97 ≤ b ∧ b ≤ 102 then some (b - 87)
  else none

/-- Accumulate a nonempty all-hex-digit run into a number. -/
def parseHexDigits : List Byte → Option Nat
  | [] => none
  | [b] => hexDigitVal b
  | b :: rest =>
    match hexDigitVal b, parseHexDigits rest with
    | some v, some r => some (v * 16 ^ rest.length + r)
    | _, _ => none

/-- Model of Python 2 `int(s, 16)`: optional surrounding whitespace, an
optional sign, an optional `0x`/`0X` prefix, then at least one hex digit;
anything else raises `ValueError`. -/
def pyIntHex (s : List Byte) : Except PyErr Int :=
  let t := ((s.dropWhile isSpaceByte).reverse.dropWhile isSpaceByte).reverse
  let (neg, t) : Bool × List Byte :=
    match t with
    | 43 :: r => (false, r)
    | 45 :: r => (true, r)
    | r => (false, r)
  let t : List Byte :=
    match t with
    | 48 :: 120 :: r => r
    | 48 :: 88 :: r => r
    | _ => t
  match parseHexDigits t with
  | none => .error .valueError
  | some v => .ok (if neg then -(v : Int) else (v : Int))

/-- Loop body of `unescape` (src lines 213-233), recast structurally on the
remaining input instead of a `pos` index. A backslash at the very end
raises `IndexError` (the source indexes `string[pos]` out of range); after
a backslash, `x` takes the slice of the next two characters through
`int(slice, 16)` — note the source never checks that two characters are
actually present or that they are hex digits, so a short or strange slice
is decided by `int`'s own rules — and `chr(value)` raises `ValueError`
outside 0..255; a second backslash emits one backslash; anything else
raises the `WTFError`. -/
def unescapeGo : List Byte → List Byte → Except PyErr (List Byte)
  | [], out => .ok out
  | ch :: rest, out =>
    if ch ≠ 92 then unescapeGo rest (out ++ [ch])
    else
      match rest with
      | [] => .error .indexError
      | ch2 :: rest2 =>
        if ch2 = 120 then
          match pyIntHex (rest2.take 2) with
          | .error e => .error e
          | .ok value =>
            if value < 0 ∨ 256 ≤ value then .error .valueError
            else
              match rest2 with
              | [] => unescapeGo [] (out ++ [value.toNat])
              | [_] => unescapeGo [] (out ++ [value.toNat])
              | _ :: _ :: r => unescapeGo r (out ++ [value.toNat])
        else if ch2 = 92 then unescapeGo rest2 (out ++ [92])
        else .error (.wtfError (strBytes "Unexpected escape code: " ++ [ch2]))

/-- Model of `unescape` (src lines 213-233). -/
def unescape (s : List Byte) : Except PyErr (List Byte) := unescapeGo s []

/-- One attempted match of the regex `Text\("([^\x22]+)"\)` at the head of
the input: the literal `Text("`, then a nonempty greedy run of non-quote
characters, then `")`. Returns the captured run and how many characters
the whole match consumed. Because the run cannot contain a quote, the
regex engine has no shorter alternative run to backtrack to, so failure of
the closing `")` fails the whole position. -/
def tryMatchText (s : List Byte) : Option (List Byte × Nat) :=
  match s with
  | 84 :: 101 :: 120 :: 116 :: 40 :: 34 :: rest =>
    let run := rest.takeWhile (fun b => b ≠ 34)
    if run.length = 0 then none
    else
      match rest.drop run.length with
      | 34 :: 41 :: _ => some (run, 6 + run.length + 2)
      | _ => none
  | _ => none

/-- Scanning loop of `TEXT_RE.findall` (src line 25 and 166): try a match
at each position, emitting the capture and continuing after the match on
success, else advancing one character. The fuel argument is the input
length, which bounds the number of scanning steps. -/
def findallTextGo : Nat → List Byte → List (List Byte)
  | 0, _ => []
  | fuel + 1, s =>
    match tryMatchText s with
    | some (cap, consumed) => cap :: findallTextGo fuel (s.drop consumed)
    | none =>
      match s with
      | [] => []
      | _ :: tail => findallTextGo fuel tail

/-- All non-overlapping matches of `TEXT_RE` in the disassembly text. -/
def findallText (s : List Byte) : List (List Byte) := findallTextGo s.length s

/-- Report accumulation of `_handleScript` (src lines 163-170): for each
match, a literal header line, the unescaped text and a blank line are
written; a failing `unescape` aborts the whole script with its
exception. -/
def buildReport : List (List Byte) → Except PyErr (List Byte)
  | [] => .ok []
  | m :: ms =>
    match unescape m with
    | .error e => .error e
    | .ok u =>
      match buildReport ms with
      | .error e => .error e
      | .ok rest => .ok (strBytes "[String]" ++ [10] ++ u ++ [10] ++ [10] ++ rest)

/-- Model of class `GameObj` (src lines 237-238): `__slots__` declares the
two attributes but no `__init__` assigns them, so both start *unset*
(`none`); reading an unset slot raises `AttributeError`. -/
structure GameObj where
  name : Option (List Byte)
  scripts : Option (List Byte)
  deriving DecidableEq, Repr

/-- Processor state: the decrypting input stream, the object registry
(`self._obj_dict`, modelled as an insertion-ordered association list keyed
by header offset), the current-object slot (`self._current_obj`, held as
the key of the object it references), and everything printed to stdout so
far. -/
structure PState where
  infile : DecryptingStream
  objs : List (Nat × GameObj)
  cur : Option Nat
  out : List Byte
  deriving DecidableEq, Repr

/-- Read through the processor's decrypting stream. -/
def PState.readBytes (s : PState) (n : Nat) : List Byte × PState :=
  let (bs, ds) := s.infile.read n
  (bs, { s with infile := ds })

/-- Stream position, via `self._infile.tell()`. -/
def PState.tell (s : PState) : Nat := s.infile.tell

/-- Seek on the processor's stream. -/
def PState.seek (s : PState) (off : Int) (whence : Nat) :
    Except PyErr PState :=
  match s.infile.seek off whence with
  | .error e => .error e
  | .ok ds => .ok { s with infile := ds }

/-- A Python `print` statement: the bytes followed by a newline. -/
def PState.print (s : PState) (line : List Byte) : PState :=
  { s with out := s.out ++ line ++ [10] }

/-- Store into `self._obj_dict[k]`, replacing an existing entry for the
same key and otherwise appending. -/
def dictSet (d : List (Nat × GameObj)) (k : Nat) (v : GameObj) :
    List (Nat × GameObj) :=
  if d.any (fun p => p.1 == k) then
    d.map (fun p => if p.1 == k then (k, v) else p)
  else d ++ [(k, v)]

/-- Mutation `obj.scripts = v` through the reference held in the registry
at key `k`. -/
def dictSetScripts (d : List (Nat × GameObj)) (k : Nat) (v : List Byte) :
    List (Nat × GameObj) :=
  d.map (fun p => if p.1 == k then (p.1, { p.2 with scripts := some v }) else p)

/-- Mutation `obj.name = v` through the reference held in the registry at
key `k`. -/
def dictSetName (d : List (Nat × GameObj)) (k : Nat) (v : List Byte) :
    List (Nat × GameObj) :=
  d.map (fun p => if p.1 == k then (p.1, { p.2 with name := some v }) else p)

/-- Python 2 string `<` comparison: bytewise lexicographic. -/
def pyStrLt : List Byte → List Byte → Bool
  | [], [] => false
  | [], _ :: _ => true
  | _ :: _, [] => false
  | a :: as, b :: bs => if a < b then true else if a = b then pyStrLt as bs else false

/-- Python 2 string `<=` comparison. -/
def pyStrLe (a b : List Byte) : Bool := pyStrLt a b || a == b

/-- Model of `isValidBlockType` (src lines 205-210). The source loops
`for ch in block_type` but the condition it tests is
`'A' <= block_type <= 'Z'` — the *whole four-character string*, not `ch` —
so the loop repeats one string comparison four times; the embedding keeps
the unused loop binder to mirror that. The `assert len(block_type) == 4`
is an `AssertionError` when violated. -/
def isValidBlockType (block_type : List Byte) : Except PyErr Bool :=
  if block_type.length = 4 then
    .ok (block_type.all (fun _ => pyStrLe [65] block_type && pyStrLe block_type [90]))
  else .error .assertionError

/-- Python `struct.unpack('>I', s)[0]`: exactly four bytes, big-endian;
`struct.error` otherwise. -/
def unpackBE32 (bs : List Byte) : Except PyErr Nat :=
  match bs with
  | [a, b, c, d] => .ok (((a * 256 + b) * 256 + c) * 256 + d)
  | _ => .error .structError

/-- The container tags `('LECF', 'LFLF', 'ROOM')` of src line 127. -/
def containerTags : List (List Byte) :=
  [[76, 69, 67, 70], [76, 70, 76, 70], [82, 79, 79, 77]]

/-- The script tags `('SCRP', 'LSCR', 'ENCD', 'EXCD', 'VERB')` of src
line 130. -/
def scriptTags : List (List Byte) :=
  [[83, 67, 82, 80], [76, 83, 67, 82], [69, 78, 67, 68], [69, 88, 67, 68],
   [86, 69, 82, 66]]

/-- The tag `'VERB'`. -/
def tagVERB : List Byte := [86, 69, 82, 66]

/-- The tag `'OBCD'`. -/
def tagOBCD : List Byte := [79, 66, 67, 68]

/-- The tag `'OBNA'`. -/
def tagOBNA : List Byte := [79, 66, 78, 65]

/-- One uppercase hexadecimal digit byte. -/
def hexDigitU (n : Nat) : Byte := if n < 10 then 48 + n else 55 + n

/-- Hex digits of `n`, most significant first; the fuel bounds the digit
count so the recursion is structural. -/
def toHexUGo : Nat → Nat → List Byte
  | 0, _ => []
  | fuel + 1, n => if n = 0 then [] else toHexUGo fuel (n / 16) ++ [hexDigitU (n % 16)]

/-- Python `'%X' % n`. -/
def hexX (n : Nat) : List Byte := if n = 0 then [48] else toHexUGo n n

/-- Python `'%08X' % n`: at least eight digits, zero padded. -/
def hex8 (n : Nat) : List Byte :=
  let h := hexX n
  List.replicate (8 - h.length) 48 ++ h

/-- The standalone report header printed for non-verb script blocks (src
line 138). -/
def scriptHeader (block_type : List Byte) (hdr_offset : Nat) : List Byte :=
  strBytes "***** " ++ block_type ++ strBytes " SCRIPT AT: " ++ hex8 hdr_offset
    ++ strBytes " *****"

/-- The per-object report header printed by `process` (src line 110). -/
def objHeader (key : Nat) (nm : List Byte) : List Byte :=
  strBytes "***** OBJECT AT: " ++ hex8 key ++ strBytes " (" ++ nm
    ++ strBytes ") *****"

/-- The message of the invalid-block-type `WTFError` (src line 153). -/
def invalidBlockMsg (hdr_offset : Nat) : List Byte :=
  strBytes "Invalid block type at offset " ++ hexX hdr_offset

/-- The message of the overshoot `WTFError` (src line 161). -/
def overshootMsg : List Byte :=
  strBytes "Overshot the end of a block while processing sub-blocks!"

/-- Loop of `_readASCIIZ` (src lines 196-202): read one byte at a time
until a NUL. At end of file `read(1)` returns the empty string, which is
not equal to `'\x00'`, so the loop spins forever; the fuel running out
(`none`) models that divergence. -/
def readASCIIZ : Nat → List Byte → PState → Option (List Byte × PState)
  | 0, _, _ => none
  | fuel + 1, acc, s =>
    let (ch, s') := s.readBytes 1
    if ch = [0] then some (acc, s')
    else readASCIIZ fuel (acc ++ ch) s'

/-- Pure part of `_handleScript` (src lines 163-170) after the block bytes
have been staged: run the external disassembler oracle on them, then scan
and unescape every `Text("...")` occurrence. -/
def handleScriptPure (descumm : List Byte → Except PyErr (List Byte))
    (dump : List Byte) : Except PyErr (List Byte) :=
  match descumm dump with
  | .error e => .error e
  | .ok disasm => buildReport (findallText disasm)

/-- Model of `_handleScript` (src lines 163-170, with
`_dissassembleScript` of lines 173-192 abstracted by the oracle): read
`size` bytes from the current position into the staging file, disassemble,
and build the extracted-string report. -/
def handleScript (descumm : List Byte → Except PyErr (List Byte))
    (size : Nat) (s : PState) : Except PyErr (List Byte × PState) :=
  let (dump, s') := s.readBytes size
  match handleScriptPure descumm dump with
  | .error e => .error e
  | .ok rep => .ok (rep, s')

mutual

/-- Model of `Processor._processBlock` (src lines 114-154), parametrized
by the `descumm` oracle and a fuel that bounds recursion depth and loop
iterations (`none` = the Python program would still be running). Reads the
4-byte tag and big-endian size, computes `size = raw_size - 8` as a
possibly negative integer — the source has no underflow check — and
dispatches exactly as the source does. -/
def processBlock (descumm : List Byte → Except PyErr (List Byte)) :
    Nat → PState → Option (Except PyErr PState)
  | 0, _ => none
  | fuel + 1, s0 =>
    let hdr_offset := s0.tell
    let (block_type, s1) := s0.readBytes 4
    let (szBytes, s2) := s1.readBytes 4
    match unpackBE32 szBytes with
    | .error e => some (.error e)
    | .ok raw_size =>
      let size : Int := (raw_size : Int) - 8
      if block_type ∈ containerTags then
        processSubBlocks descumm fuel size s2
      else if block_type ∈ scriptTags then
        match s2.seek (hdr_offset : Int) 0 with
        | .error e => some (.error e)
        | .ok s3 =>
          match handleScript descumm raw_size s3 with
          | .error e => some (.error e)
          | .ok (result, s4) =>
            if block_type = tagVERB then
              match s4.cur with
              | none => some (.error .attributeError)
              | some k =>
                some (.ok { s4 with objs := dictSetScripts s4.objs k result })
            else
              some (.ok ((s4.print (scriptHeader block_type hdr_offset)).print
                result))
      else if block_type = tagOBCD then
        let s3 := { s2 with objs := dictSet s2.objs hdr_offset ⟨none, none⟩,
                            cur := some hdr_offset }
        processSubBlocks descumm fuel size s3
      else if block_type = tagOBNA then
        match readASCIIZ fuel [] s2 with
        | none => none
        | some (nm, s3) =>
          match s3.cur with
          | none => some (.error .attributeError)
          | some k => some (.ok { s3 with objs := dictSetName s3.objs k nm })
      else
        match isValidBlockType block_type with
        | .error e => some (.error e)
        | .ok false => some (.error (.wtfError (invalidBlockMsg hdr_offset)))
        | .ok true =>
          match s2.seek size 1 with
          | .error e => some (.error e)
          | .ok s3 => some (.ok s3)

/-- Model of `Processor._processSubBlocks` (src lines 156-161): compute
the end position, run the sub-block loop, then raise the overshoot
`WTFError` if the final position passed the end. -/
def processSubBlocks (descumm : List Byte → Except PyErr (List Byte)) :
    Nat → Int → PState → Option (Except PyErr PState)
  | 0, _, _ => none
  | fuel + 1, size, s =>
    let endPos : Int := (s.tell : Int) + size
    match subLoop descumm fuel endPos s with
    | some (.ok s') =>
      if (s'.tell : Int) > endPos then some (.error (.wtfError overshootMsg))
      else some (.ok s')
    | r => r

/-- The `while self._infile.tell() < end` loop of `_processSubBlocks`. -/
def subLoop (descumm : List Byte → Except PyErr (List Byte)) :
    Nat → Int → PState → Option (Except PyErr PState)
  | 0, _, _ => none
  | fuel + 1, endPos, s =>
    if (s.tell : Int) < endPos then
      match processBlock descumm fuel s with
      | some (.ok s') => subLoop descumm fuel endPos s'
      | r => r
    else some (.ok s)

end

/-- The object report loop of `Processor.process` (src lines 109-111):
for each registry entry, format the header — which reads `value.name` and
raises `AttributeError` if that slot was never assigned — print it, then
print `value.scripts`, which likewise raises `AttributeError` when
unset. -/
def emitObjs : List (Nat × GameObj) → PState → Except PyErr PState
  | [], s => .ok s
  | (k, v) :: rest, s =>
    match v.name with
    | none => .error .attributeError
    | some nm =>
      let s' := s.print (objHeader k nm)
      match v.scripts with
      | none => .error .attributeError
      | some sc => emitObjs rest (s'.print sc)

/-- Model of `Processor.process` (src lines 106-111): walk the root block,
then emit every registered object. -/
def Processor.process (descumm : List Byte → Except PyErr (List Byte))
    (fuel : Nat) (s : PState) : Option (Except PyErr PState) :=
  match processBlock descumm fuel s with
  | some (.ok s') => some (emitObjs s'.objs s')
  | r => r

/-- Fresh processor state over the given (already opened) stream
contents, with the given XOR key, empty registry, no current object and
nothing printed. -/
def mkPState (xorKey : Nat) (data : List Byte) : PState :=
  ⟨⟨⟨data, 0⟩, xorKey⟩, [], none, []⟩

/-- The incompatible-file message of src line 85. -/
def notCompatMsg : List Byte := strBytes "This is not a compatible SCUMM file."

/-- Model of the key-derivation and magic-check prologue of `main` (src
lines 78-86): read the first raw byte (`IndexError` on an empty file),
derive `xor = byte0 XOR ord('L')`, wrap the stream in a
`DecryptingStream`, re-seek to 0, read four decrypted bytes and require
the literal `'LECF'`, failing with `ScummFileError` otherwise. Returns
the derived key. -/
def mainMagic (raw : List Byte) : Except PyErr Nat :=
  let st : RawStream := ⟨raw, 0⟩
  let (magic, st') := st.read 1
  match magic with
  | [] => .error .indexError
  | m0 :: _ =>
    let xor := m0 ^^^ 76
    let ds : DecryptingStream := ⟨st', xor⟩
    match ds.seek 0 0 with
    | .error e => .error e
    | .ok ds' =>
      let (magic4, _) := ds'.read 4
      if magic4 = [76, 69, 67, 70] then .ok xor
      else .error (.scummFileError notCompatMsg)

/-- A trivial disassembler oracle producing empty output, for runs whose
script handling is irrelevant. -/
def orcTriv : List Byte → Except PyErr (List Byte) := fun _ => .ok []

/-- A 9-byte `VERB` block whose one payload byte distinguishes it. -/
def verbBlock (payload : Byte) : List Byte :=
  [86, 69, 82, 66, 0, 0, 0, 9, payload]

/-- An `OBCD` block at offset 0 containing two `VERB` sub-blocks. -/
def twoVerbArchive : List Byte :=
  [79, 66, 67, 68, 0, 0, 0, 26] ++ verbBlock 1 ++ verbBlock 2

/-- Oracle for the two-verb archive: the first verb block disassembles to
a script containing the string `one`, the second to one containing
`two`. -/
def orcTwoVerb : List Byte → Except PyErr (List Byte) := fun dump =>
  if dump = verbBlock 1 then .ok (strBytes "Text(\x22one\x22)")
  else .ok (strBytes "Text(\x22two\x22)")

/-- The report fragment for the string `one`. -/
def repOne : List Byte := strBytes "[String]\none\n\n"

/-- The report fragment for the string `two`. -/
def repTwo : List Byte := strBytes "[String]\ntwo\n\n"

/-- The one-unknown-block archive used to instantiate claim C6. -/
def c6Archive : List Byte := [65, 65, 65, 65, 0, 0, 0, 8]

/-- The state after walking `c6Archive` as a sub-block run of size 8. -/
def c6Final : PState := ⟨⟨⟨c6Archive, 8⟩, 0⟩, [], none, []⟩

/-- An archive that is a single `OBNA` block (declared size 9) whose name
payload is the empty string, with no enclosing `OBCD`. -/
def obnaArchive : List Byte := [79, 66, 78, 65, 0, 0, 0, 9, 0]

/-- An archive that is a single empty `OBCD` block: an object is
registered, but no `OBNA` or `VERB` descendant ever assigns its slots. -/
def obcdEmptyArchive : List Byte := [79, 66, 67, 68, 0, 0, 0, 8]

/-- Whether an exception is the explicitly raised corruption-class error
of the source: spec section 7 classifies exactly the `WTFError` raises
(invalid tag, overshoot, malformed escape, and its other uses) as the
corruption-error kind; unchecked interpreter faults such as
`AttributeError` are not of that kind. -/
def isCheckedCorruption : PyErr → Bool
  | .wtfError _ => true
  | _ => false

/-!
## General lemmas about the embedding
-/

/-- The decrypting transform is pointwise XOR, also for the key-0 shortcut
branch. -/
theorem decryptBytes_eq_map (k : Nat) (l : List Byte) :
    decryptBytes k l = l.map (fun x => x ^^^ k) := by
  unfold decryptBytes
  by_cases hk : k = 0
  · subst hk
    simp
  · simp [hk]

/-- XOR by the same value twice cancels. -/
theorem xor_xor_cancel (x k : Nat) : (x ^^^ k) ^^^ k = x := by
  rw [Nat.xor_assoc, Nat.xor_self, Nat.xor_zero]

/-- Moving an XOR to the other side of an equation. -/
theorem xor_shift_iff (a b v c : Nat) :
    a ^^^ (b ^^^ v) = c ↔ a ^^^ b = c ^^^ v := by
  constructor
  · intro h
    rw [← h, Nat.xor_assoc, xor_xor_cancel]
  · intro h
    rw [← Nat.xor_assoc, h, xor_xor_cancel]

/-- XOR by a fixed value is injective. -/
theorem xor_right_cancel_iff (x y v : Nat) : x ^^^ v = y ^^^ v ↔ x = y := by
  constructor
  · intro h
    have := congrArg (fun z => z ^^^ v) h
    simpa [xor_xor_cancel] using this
  · intro h
    rw [h]

/-- Dropping one more element after a known head. -/
theorem drop_eq_rest_of_drop_cons {data : List Byte} {pos : Nat} {b : Byte}
    {rest : List Byte} (h : data.drop pos = b :: rest) :
    data.drop (pos + 1) = rest := by
  have h2 : (data.drop pos).drop 1 = data.drop (pos + 1) := List.drop_drop 1 pos data
  rw [← h2, h]
  rfl

/-!
## Claim C9: DecryptingStream algebra
-/

/-- Claim C9: the XOR transform of `DecryptingStream.read` is an
involution for every key; a `DecryptingStream` with key 0 reads exactly
what the underlying stream reads, leaving the underlying stream in the
same state; and `seek`/`tell` pass straight through to the underlying
stream for every key. -/
theorem c9_decrypting_stream_algebra :
    (∀ (k : Nat) (data : List Byte),
      decryptBytes k (decryptBytes k data) = data)
    ∧ (∀ (st : RawStream) (n : Nat),
      DecryptingStream.read ⟨st, 0⟩ n = ((st.read n).1, ⟨(st.read n).2, 0⟩))
    ∧ (∀ (st : RawStream) (k : Nat) (off : Int) (whence : Nat),
      DecryptingStream.seek ⟨st, k⟩ off whence
        = (st.seek off whence).map (fun st' => ⟨st', k⟩))
    ∧ (∀ (st : RawStream) (k : Nat),
      DecryptingStream.tell ⟨st, k⟩ = st.tell) := by
  refine ⟨fun k data => ?_, fun st n => ?_, fun st k off whence => ?_,
    fun st k => ?_⟩
  · rw [decryptBytes_eq_map, decryptBytes_eq_map, List.map_map]
    simp [Function.comp_def, xor_xor_cancel]
  · rfl
  · unfold DecryptingStream.seek
    cases st.seek off whence <;> simp [Except.map]
  · rfl

/-!
## Claim C10: the magic check and byte 0
-/

/-- Claim C10, counterexample: two files that differ only in byte 0 —
`LECF` raw and the same with byte 0 bumped to `'M'` — are not both
accepted or both rejected: the first passes the magic check, the second
fails it, because the XOR key itself is derived from byte 0. -/
theorem c10_counterexample :
    mainMagic [76, 69, 67, 70] = .ok 0
    ∧ mainMagic [77, 69, 67, 70] = .error (.scummFileError notCompatMsg) := by
  constructor <;> decide

/-- Claim C10, amended: the first decrypted byte is always `'L'` (76), so
the magic check never fails on byte 0's own comparison; but since the key
is derived from byte 0, the check passes exactly when each of bytes 1..3
XORed with byte 0 equals the corresponding magic byte XORed with `'L'` —
the outcome depends jointly on byte 0 and bytes 1 through 3. -/
theorem c10_magic_depends_on_byte0 (b0 b1 b2 b3 : Byte) (rest : List Byte) :
    decryptBytes (b0 ^^^ 76) [b0] = [76]
    ∧ (mainMagic (b0 :: b1 :: b2 :: b3 :: rest) = .ok (b0 ^^^ 76)
      ↔ (b1 ^^^ b0 = 69 ^^^ 76 ∧ b2 ^^^ b0 = 67 ^^^ 76 ∧ b3 ^^^ b0 = 70 ^^^ 76)) := by
  have hfirst : ∀ b : Nat, b ^^^ (b ^^^ 76) = 76 := fun b => by
    rw [← Nat.xor_assoc, Nat.xor_self, Nat.zero_xor]
  constructor
  · rw [decryptBytes_eq_map]
    simp [hfirst]
  · have hred : mainMagic (b0 :: b1 :: b2 :: b3 :: rest)
        = (if decryptBytes (b0 ^^^ 76) [b0, b1, b2, b3] = [76, 69, 67, 70]
            then .ok (b0 ^^^ 76)
            else .error (.scummFileError notCompatMsg)) := rfl
    rw [hred, decryptBytes_eq_map]
    simp only [List.map]
    split_ifs with hc
    · simp only [List.cons.injEq, and_true] at hc
      obtain ⟨-, h1, h2, h3⟩ := hc
      constructor
      · intro _
        exact ⟨(xor_shift_iff _ _ _ _).mp h1, (xor_shift_iff _ _ _ _).mp h2,
          (xor_shift_iff _ _ _ _).mp h3⟩
      · intro _
        rfl
    · constructor
      · intro h
        exact absurd h (by simp)
      · rintro ⟨h1, h2, h3⟩
        refine absurd ?_ hc
        simp only [List.cons.injEq, and_true]
        exact ⟨hfirst b0, (xor_shift_iff _ _ _ _).mpr h1,
          (xor_shift_iff _ _ _ _).mpr h2, (xor_shift_iff _ _ _ _).mpr h3⟩

/-!
## Claim C2: blocks with declared size below 8
-/

/-- Claim C2 (code bug): an unknown-but-valid-looking block (`'AAAA'`)
declaring size 0 — below the 8-byte header — is not rejected: no
corruption error is raised, and the skip `seek(size, SEEK_CUR)` is
executed with the negative length `0 - 8 = -8`, leaving the stream
position at 0, eight bytes *behind* the end of the header just read. -/
theorem c2_undersized_block_not_rejected :
    (processBlock orcTriv 1 (mkPState 0 [65, 65, 65, 65, 0, 0, 0, 0])).map
      (Except.map PState.tell) = some (.ok 0) := by decide

/-!
## Claim C3: unescape and malformed escapes
-/

/-- Claim C3 (code bug): `unescape` does not reject every malformed
escape. A `\x` followed by a single hex digit at the end of the payload is
silently decoded from that one digit (`int('A', 16) = 10`), a `\x` at the
very end raises `ValueError` (from `int('', 16)`), and a lone backslash at
the end raises `IndexError` — none of these raise the `WTFError`
corruption error the claim requires; only a backslash followed by another
character raises it. -/
theorem c3_malformed_escape_not_always_wtf :
    unescape [92, 120, 65] = .ok [10]
    ∧ unescape [92, 120] = .error .valueError
    ∧ unescape [92] = .error .indexError
    ∧ unescape [92, 113]
      = .error (.wtfError (strBytes "Unexpected escape code: " ++ [113])) := by
  refine ⟨by decide, by decide, by decide, by decide⟩

/-!
## Claim C4: unrecognized-tag validation
-/

/-- Claim C4 (code bug): `isValidBlockType` compares the whole four-byte
string against `'A'` and `'Z'` instead of each character (its loop never
uses `ch`), so `'ZZZZ'` — four uppercase letters — is *rejected* with the
corruption `WTFError`, while `'A!!!'` — three bytes outside `'A'..'Z'` —
is accepted and skipped without any error. -/
theorem c4_block_type_validation_broken :
    isValidBlockType [90, 90, 90, 90] = .ok false
    ∧ isValidBlockType [65, 33, 33, 33] = .ok true
    ∧ processBlock orcTriv 1 (mkPState 0 [90, 90, 90, 90, 0, 0, 0, 8])
      = some (.error (.wtfError (invalidBlockMsg 0)))
    ∧ (processBlock orcTriv 1 (mkPState 0 [65, 33, 33, 33, 0, 0, 0, 8])).map
      (Except.map PState.tell) = some (.ok 8) := by
  refine ⟨by decide, by decide, by decide, by decide⟩

/-!
## Claim C5: the null-terminated string reader
-/

/-- One unfolding of the `_readASCIIZ` loop, with the read spelled out. -/
theorem readASCIIZ_succ (fuel : Nat) (acc : List Byte) (s : PState) :
    readASCIIZ (fuel + 1) acc s =
      (let ch := decryptBytes s.infile.xorKey
        ((s.infile.source.data.drop s.infile.source.pos).take 1)
       let s' : PState := { s with infile := { s.infile with source :=
        { s.infile.source with pos := s.infile.source.pos +
          ((s.infile.source.data.drop s.infile.source.pos).take 1).length } } }
       if ch = [0] then some (acc, s') else readASCIIZ fuel (acc ++ ch) s') :=
  rfl

/-- Claim C5 (code bug): when the stream is exhausted before any NUL byte
appears, `_readASCIIZ` never returns — `read(1)` yields the empty string
forever, which is never equal to `'\x00'`, so the loop spins. In the fuel
model, no amount of fuel produces a result; the claim instead requires an
I/O-boundary error to surface. -/
theorem c5_readASCIIZ_diverges_when_unterminated (fuel : Nat) (acc : List Byte)
    (s : PState)
    (h : ∀ b ∈ decryptBytes s.infile.xorKey
      (s.infile.source.data.drop s.infile.source.pos), b ≠ 0) :
    readASCIIZ fuel acc s = none := by
  induction fuel generalizing acc s with
  | zero => rfl
  | succ fuel ih =>
    rw [readASCIIZ_succ]
    cases hdrop : s.infile.source.data.drop s.infile.source.pos with
    | nil =>
      simp only [hdrop, List.take_nil, List.length_nil, Nat.add_zero,
        decryptBytes_eq_map, List.map_nil, List.append_nil]
      rw [if_neg (by simp)]
      exact ih acc s h
    | cons b rest =>
      simp only [hdrop, List.take_succ_cons, List.take_zero,
        decryptBytes_eq_map, List.map_cons, List.map_nil, List.length_cons,
        List.length_nil, Nat.zero_add]
      have hb : b ^^^ s.infile.xorKey ≠ 0 := by
        apply h
        rw [hdrop, decryptBytes_eq_map]
        simp
      rw [if_neg (by simp [hb])]
      apply ih
      intro b' hb'
      apply h
      rw [decryptBytes_eq_map] at hb' ⊢
      rw [hdrop]
      simp only [drop_eq_rest_of_drop_cons hdrop] at hb'
      simp only [List.map_cons]
      exact List.mem_cons_of_mem _ hb'

/-- Claim C5 witness: a concrete stream (one byte `'A'`, no NUL) whose
suffix contains no zero byte, on which the reader produces no result at
fuel 5. -/
theorem c5_witness :
    (∀ b ∈ decryptBytes (mkPState 0 [65]).infile.xorKey
      ((mkPState 0 [65]).infile.source.data.drop
        (mkPState 0 [65]).infile.source.pos), b ≠ 0)
    ∧ readASCIIZ 5 [] (mkPState 0 [65]) = none :=
  ⟨by decide,
    c5_readASCIIZ_diverges_when_unterminated 5 [] (mkPState 0 [65]) (by decide)⟩

/-!
## Claim C6: exact consumption of container payloads
-/

/-- A successful sub-block loop never stops strictly before the end
position: the loop keeps iterating while `tell() < end`. -/
theorem subLoop_ok_not_lt (d : List Byte → Except PyErr (List Byte))
    (fuel : Nat) (endPos : Int) (s s' : PState)
    (h : subLoop d fuel endPos s = some (.ok s')) :
    ¬ (s'.tell : Int) < endPos := by
  induction fuel generalizing s with
  | zero => simp [subLoop] at h
  | succ fuel ih =>
    simp only [subLoop] at h
    by_cases hlt : (s.tell : Int) < endPos
    · rw [if_pos hlt] at h
      cases hpb : processBlock d fuel s with
      | none => rw [hpb] at h; exact absurd h (by simp)
      | some r =>
        cases r with
        | error e => rw [hpb] at h; exact absurd h (by simp)
        | ok s1 => rw [hpb] at h; exact ih s1 h
    · rw [if_neg hlt] at h
      have hs : s = s' := by simpa using h
      subst hs
      exact hlt

/-- Claim C6: (1) whenever `_processSubBlocks` succeeds, the final stream
position is exactly the starting position plus the given payload size —
equivalently, the sum of the sub-block sizes consumed equals the payload
size, and `end` being `tell() + size` with `tell()` just past the header
makes this `header_offset + declared_size`; (2) the loop does not run at
all when the position has already reached the end; (3) a loop that stops
strictly past the end makes `_processSubBlocks` raise the overshoot
corruption `WTFError`. -/
theorem c6_subblock_walk_exact :
    (∀ (d : List Byte → Except PyErr (List Byte)) (fuel : Nat) (size : Int)
      (s s' : PState), processSubBlocks d fuel size s = some (.ok s') →
        (s'.tell : Int) = (s.tell : Int) + size)
    ∧ (∀ (d : List Byte → Except PyErr (List Byte)) (fuel : Nat)
      (endPos : Int) (s : PState), ¬ (s.tell : Int) < endPos →
        subLoop d (fuel + 1) endPos s = some (.ok s))
    ∧ (∀ (d : List Byte → Except PyErr (List Byte)) (fuel : Nat) (size : Int)
      (s s'' : PState),
        subLoop d fuel ((s.tell : Int) + size) s = some (.ok s'') →
        (s''.tell : Int) > (s.tell : Int) + size →
        processSubBlocks d (fuel + 1) size s
          = some (.error (.wtfError overshootMsg))) := by
  refine ⟨fun d fuel size s s' h => ?_, fun d fuel endPos s h => ?_,
    fun d fuel size s s'' h1 h2 => ?_⟩
  · cases fuel with
    | zero => simp [processSubBlocks] at h
    | succ fuel =>
      simp only [processSubBlocks] at h
      cases hsl : subLoop d fuel ((s.tell : Int) + size) s with
      | none => rw [hsl] at h; exact absurd h (by simp)
      | some r =>
        cases r with
        | error e => rw [hsl] at h; exact absurd h (by simp)
        | ok s1 =>
          simp only [hsl] at h
          by_cases hgt : (s1.tell : Int) > (s.tell : Int) + size
          · rw [if_pos hgt] at h
            exact absurd h (by simp)
          · rw [if_neg hgt] at h
            have hs : s1 = s' := by simpa using h
            subst hs
            have hnl := subLoop_ok_not_lt d fuel _ s s1 hsl
            omega
  · simp only [subLoop]
    rw [if_neg h]
  · simp only [processSubBlocks, h1]
    rw [if_pos h2]

/-- Claim C6 witness: all three parts instantiated on concrete runs — a
size-8 payload consumed exactly, a loop that starts at its end position,
and a size-4 payload whose single sub-block consumes 8 bytes and triggers
the overshoot error. -/
theorem c6_witness :
    (c6Final.tell : Int) = ((mkPState 0 c6Archive).tell : Int) + 8
    ∧ subLoop orcTriv 1 0 (mkPState 0 []) = some (.ok (mkPState 0 []))
    ∧ processSubBlocks orcTriv 3 4 (mkPState 0 c6Archive)
      = some (.error (.wtfError overshootMsg)) :=
  ⟨c6_subblock_walk_exact.1 orcTriv 3 8 (mkPState 0 c6Archive) c6Final
      (by decide),
    c6_subblock_walk_exact.2.1 orcTriv 0 0 (mkPState 0 []) (by decide),
    c6_subblock_walk_exact.2.2 orcTriv 2 4 (mkPState 0 c6Archive) c6Final
      (by decide) (by decide)⟩

/-!
## Claim C7: OBNA with no object in context
-/

/-- Claim C7, counterexample: processing an `OBNA` block with no object
in context does not fail with the checked corruption-class `WTFError` —
it fails with the unchecked `AttributeError` of assigning `.name` on
`None`, because the source never tests `self._current_obj` before using
it. -/
theorem c7_counterexample :
    processBlock orcTriv 3 (mkPState 0 obnaArchive)
      = some (.error .attributeError)
    ∧ isCheckedCorruption .attributeError = false := by
  constructor <;> decide

/-- Claim C7, amended: for every declared-size field, every stream tail
and every oracle, an `OBNA` block whose name is NUL-terminated and which
is reached with no object in context makes `_processBlock` fail with the
unchecked `AttributeError` runtime fault (the right-hand side
`_readASCIIZ()` is evaluated first, then the attribute assignment on
`None` faults), not with an explicitly checked corruption-class error. -/
theorem c7_obna_without_object_faults
    (orc : List Byte → Except PyErr (List Byte)) (a b c d : Byte)
    (rest : List Byte) (fuel : Nat) :
    processBlock orc (fuel + 2)
      (mkPState 0 ([79, 66, 78, 65, a, b, c, d, 0] ++ rest))
      = some (.error .attributeError) := rfl

/-!
## Claim C8: unset record fields and report emission
-/

/-- Claim C8, counterexample: a Game Object Record created on entering an
object-container block has both slots *unset* (not empty text), and final
report emission does not succeed for it — `process` faults with the
unchecked `AttributeError` when formatting the header of an object whose
name (and scripts) block was never seen. -/
theorem c8_counterexample :
    (processBlock orcTriv 3 (mkPState 0 obcdEmptyArchive)).map
      (Except.map PState.objs) = some (.ok [(0, ⟨none, none⟩)])
    ∧ Processor.process orcTriv 3 (mkPState 0 obcdEmptyArchive)
      = some (.error .attributeError) := by
  constructor <;> decide

/-- Claim C8, amended: report emission succeeds exactly when every
registered record has both its `name` and its `scripts` slot assigned;
any record with an unset slot makes emission fail, and the failure is the
unchecked `AttributeError` of reading an unset `__slots__` attribute. -/
theorem c8_emission_requires_both_fields (objs : List (Nat × GameObj))
    (s : PState) :
    ((∃ s', emitObjs objs s = .ok s')
      ↔ ∀ p ∈ objs, p.2.name.isSome ∧ p.2.scripts.isSome)
    ∧ ((∃ s', emitObjs objs s = .ok s')
      ∨ emitObjs objs s = .error .attributeError) := by
  induction objs generalizing s with
  | nil =>
    refine ⟨?_, .inl ⟨s, rfl⟩⟩
    simp [emitObjs]
  | cons p rest ih =>
    obtain ⟨k, v⟩ := p
    cases hn : v.name with
    | none =>
      constructor
      · constructor
        · rintro ⟨s', hs'⟩
          simp [emitObjs, hn] at hs'
        · intro hall
          have := (hall (k, v) (by simp)).1
          rw [hn] at this
          simp at this
      · right
        simp [emitObjs, hn]
    | some nm =>
      cases hs : v.scripts with
      | none =>
        constructor
        · constructor
          · rintro ⟨s', hs'⟩
            simp [emitObjs, hn, hs] at hs'
          · intro hall
            have := (hall (k, v) (by simp)).2
            rw [hs] at this
            simp at this
        · right
          simp [emitObjs, hn, hs]
      | some sc =>
        have heq : emitObjs ((k, v) :: rest) s
            = emitObjs rest ((s.print (objHeader k nm)).print sc) := by
          simp [emitObjs, hn, hs]
        obtain ⟨ih1, ih2⟩ := ih ((s.print (objHeader k nm)).print sc)
        constructor
        · rw [heq, ih1]
          constructor
          · intro hall p hp
            cases hp with
            | head => exact ⟨by simp [hn], by simp [hs]⟩
            | tail _ hmem => exact hall p hmem
          · intro hall p hp
            exact hall p (List.mem_cons_of_mem _ hp)
        · rw [heq]
          exact ih2

/-- Claim C8 witness for the amended statement: a registry with one fully
assigned record, on which emission succeeds, instantiating both parts. -/
theorem c8_emission_witness :
    ((∃ s', emitObjs [(0, ⟨some [65], some [66]⟩)] (mkPState 0 []) = .ok s')
      ↔ ∀ p ∈ [((0 : Nat), (⟨some [65], some [66]⟩ : GameObj))],
        p.2.name.isSome ∧ p.2.scripts.isSome)
    ∧ ((∃ s', emitObjs [(0, ⟨some [65], some [66]⟩)] (mkPState 0 []) = .ok s')
      ∨ emitObjs [(0, ⟨some [65], some [66]⟩)] (mkPState 0 [])
        = .error .attributeError) :=
  c8_emission_requires_both_fields [(0, ⟨some [65], some [66]⟩)] (mkPState 0 [])

/-!
## Claim C1: multiple verb scripts for one object
-/

set_option maxHeartbeats 2000000 in
/-- Claim C1, counterexample: an `OBCD` block with two `VERB` descendant
blocks whose disassemblies contain the strings `one` and `two`. After
traversal the record's `scripts` holds only the report fragment of the
*last* verb-script block (`two`), not the concatenation of both
fragments: line 136 of the source assigns `self._current_obj.scripts =
result` instead of appending. -/
theorem c1_counterexample :
    (processBlock orcTwoVerb 6 (mkPState 0 twoVerbArchive)).map
      (Except.map PState.objs) = some (.ok [(0, ⟨none, some repTwo⟩)])
    ∧ repTwo ≠ repOne ++ repTwo
    ∧ handleScriptPure orcTwoVerb (verbBlock 1) = .ok repOne
    ∧ handleScriptPure orcTwoVerb (verbBlock 2) = .ok repTwo := by
  refine ⟨by decide, by decide, by decide, by decide⟩

set_option maxHeartbeats 2000000 in
/-- Claim C1, amended: for every oracle under which the two verb-script
blocks of the two-verb object produce extracted-string reports `r1` and
`r2`, the record's `scripts` field afterwards holds exactly `r2` — each
verb-script report is *assigned* to the field, replacing the previous
one, so only the last verb-script block's report survives. -/
theorem c1_scripts_assigned_not_appended
    (orc : List Byte → Except PyErr (List Byte)) (r1 r2 : List Byte)
    (h1 : handleScriptPure orc (verbBlock 1) = .ok r1)
    (h2 : handleScriptPure orc (verbBlock 2) = .ok r2) :
    (processBlock orc 6 (mkPState 0 twoVerbArchive)).map
      (Except.map PState.objs) = some (.ok [(0, ⟨none, some r2⟩)]) := by
  simp only [verbBlock] at h1 h2
  simp [processBlock, processSubBlocks, subLoop, handleScript, mkPState,
    twoVerbArchive, verbBlock, PState.readBytes, PState.seek, PState.tell,
    DecryptingStream.read, DecryptingStream.seek, DecryptingStream.tell,
    RawStream.read, RawStream.seek, RawStream.tell, decryptBytes, unpackBE32,
    containerTags, scriptTags, tagVERB, tagOBCD, tagOBNA, dictSet,
    dictSetScripts, h1, h2, Except.map]

set_option maxHeartbeats 2000000 in
/-- Claim C1 witness for the amended statement, at the concrete two-verb
oracle: the surviving `scripts` value is the second report. -/
theorem c1_scripts_assigned_witness :
    handleScriptPure orcTwoVerb (verbBlock 1) = .ok repOne
    ∧ handleScriptPure orcTwoVerb (verbBlock 2) = .ok repTwo
    ∧ (processBlock orcTwoVerb 6 (mkPState 0 twoVerbArchive)).map
      (Except.map PState.objs) = some (.ok [(0, ⟨none, some repTwo⟩)]) :=
  ⟨by decide, by decide,
    c1_scripts_assigned_not_appended orcTwoVerb repOne repTwo (by decide)
      (by decide)⟩

end Strumm
